import Mathlib

/-!
Shallow embedding of the FAOA Annual Report Generator pipeline (src/app.py).

Modelling conventions:
* pandas DataFrames of normalized transactions are `List TxRow`; summary tables
  are `List SummaryRow` (row order = positional order of the frame).
* Python floats are modelled as exact rationals (`ℚ`); the pipeline only adds,
  subtracts and compares amounts, so all claim-relevant arithmetic is exact.
* `st.error` followed by `st.stop` aborts the session; a function containing
  such a site is modelled as returning `Except AppError`, the error constructor
  chosen per the error taxonomy of the spec (schema / validation / consistency).
* pandas `sort_values` is modelled by a stable insertion sort on the same key;
  pandas leaves the relative order of equal keys unspecified (quicksort), no
  claim depends on the order of key-ties.
* pandas `unique` / python `set` only feed either a cardinality test or a
  subsequent sort, so `List.dedup` is used for them (order immaterial).
-/

namespace FAOA

/- The Batteries rational arithmetic operations are `@[irreducible]`, which
blocks `decide` on concrete summary computations; restore the default
transparency for this file (elaboration-time only, no effect on soundness). -/
set_option allowUnsafeReducibility true

attribute [local semireducible] Rat.mul Rat.add Rat.sub Rat.neg Rat.div Rat.inv

/-- One normalized transaction row, i.e. one row of the merged DataFrame after
`ensure_columns` ran: Year/Month/Amount numeric, string columns stripped,
booleans coerced.  Field names follow the CSV columns of src/app.py. -/
structure TxRow where
  year : ℚ
  month : ℚ
  amount : ℚ
  code : String
  label : String
  date : String := ""
  description : String := ""
  itemLabel : String := ""
  memberEventLabel : String := ""
  eventLocation : String := ""
  eventPurpose : String := ""
  sponsorName : String := ""
  potentialSponsorship : Bool := false
  needsInvestigation : Bool := false
deriving Repr, DecidableEq

/-- One row of the annual summary table built by `build_summary_table`:
IRS Category Code, IRS Category Label, Raw Total Amount, Adjusted Total
Amount. -/
structure SummaryRow where
  code : String
  label : String
  raw : ℚ
  adjusted : ℚ
deriving Repr, DecidableEq

/-- The `st.error` + `st.stop` sites of src/app.py, classified per the error
taxonomy of the spec: missing required columns are a schema error, bad numeric
or reclassification input a validation error, a year mismatch a consistency
error.  The payloads carry the data interpolated into the on-screen message. -/
inductive AppError where
  | schemaError (missingCols : List String)
  | validationError (msg : String)
  | consistencyYears (years : List ℚ)
deriving Repr, DecidableEq

/-! ### Sorting (pandas `sort_values` / python `sorted`) -/

/-- Comparison by a key function into a linear order, the relation used by all
`sort_values(key)` / `sorted(key=...)` sites. -/
def keyLE {α κ : Type} [LinearOrder κ] (key : α → κ) (a b : α) : Prop :=
  key a ≤ key b

instance {α κ : Type} [LinearOrder κ] (key : α → κ) : DecidableRel (keyLE key) :=
  fun a b => inferInstanceAs (Decidable (key a ≤ key b))

/-- Stable sort by a key function (model of `sort_values` / `sorted`). -/
def sortByKey {α κ : Type} [LinearOrder κ] (key : α → κ) (l : List α) : List α :=
  List.insertionSort (keyLE key) l

theorem sortByKey_perm {α κ : Type} [LinearOrder κ] (key : α → κ) (l : List α) :
    List.Perm (sortByKey key l) l :=
  List.perm_insertionSort _ l

theorem sortByKey_sorted {α κ : Type} [LinearOrder κ] (key : α → κ) (l : List α) :
    List.Sorted (keyLE key) (sortByKey key l) := by
  haveI : IsTotal α (keyLE key) := ⟨fun a b => le_total (key a) (key b)⟩
  haveI : IsTrans α (keyLE key) := ⟨fun _ _ _ hab hbc => le_trans hab hbc⟩
  exact List.sorted_insertionSort _ l

/-! ### Python string primitives (`strip`, `lower`)

`str.strip()` and `str.lower()` are re-implemented on the character list (the
library versions are not kernel-reducible).  Python handles full unicode
here; ASCII behaviour is what the compared tokens and the claims exercise. -/

/-- Drop leading and trailing whitespace from a character list. -/
def stripChars (cs : List Char) : List Char :=
  ((cs.dropWhile Char.isWhitespace).reverse.dropWhile Char.isWhitespace).reverse

/-- Python `s.strip()`. -/
def pyStrip (s : String) : String :=
  ⟨stripChars s.data⟩

/-- ASCII lower-casing of one character. -/
def asciiLower (c : Char) : Char :=
  if 65 ≤ c.toNat ∧ c.toNat ≤ 90 then Char.ofNat (c.toNat + 32) else c

/-- Python `s.lower()` (ASCII fragment). -/
def pyLower (s : String) : String :=
  ⟨s.data.map asciiLower⟩

/-! ### Python numeric parsing (`int(s)`, `pd.to_numeric(..., errors="coerce")`) -/

/-- Numeric value of a decimal digit character. -/
def digitVal (c : Char) : ℕ := c.toNat - '0'.toNat

/-- Value of a list of decimal digit characters. -/
def digitsToNat (ds : List Char) : ℕ :=
  ds.foldl (fun n c => n * 10 + digitVal c) 0

/-- Python `int(...)` applied to a character list that was already stripped:
optional sign, then a nonempty run of digits; anything else raises (is
`none`). -/
def pyIntOfList (cs : List Char) : Option ℤ :=
  let (sign, ds) : ℤ × List Char :=
    match cs with
    | '-' :: rest => (-1, rest)
    | '+' :: rest => (1, rest)
    | rest => (1, rest)
  if ds = [] then none
  else if ds.all Char.isDigit then some (sign * (digitsToNat ds : ℤ))
  else none

/-- Python `int(s)` on a string: strips surrounding whitespace first. -/
def pyIntOfString (s : String) : Option ℤ :=
  pyIntOfList (stripChars s.data)

/-- Mantissa of a float literal: digits, optionally a point and more digits,
at least one digit in total. -/
def parseMantissa (cs : List Char) : Option ℚ :=
  let intPart := cs.takeWhile Char.isDigit
  let rest := cs.dropWhile Char.isDigit
  match rest with
  | [] => if intPart = [] then none else some (digitsToNat intPart : ℚ)
  | '.' :: frac =>
      if frac.all Char.isDigit ∧ ¬(intPart = [] ∧ frac = []) then
        some ((digitsToNat intPart : ℚ) + (digitsToNat frac : ℚ) / (10 : ℚ) ^ frac.length)
      else none
  | _ => none

/-- Model of `pd.to_numeric(s, errors="coerce")` on one string cell, and of
python `float(s)`: optional sign, decimal mantissa, optional exponent.  `none`
models NaN (the coerced failure value).  The special float literals inf and
nan, and underscore separators, fall outside the rational model and parse as
`none`. -/
def pyFloatOfString (s : String) : Option ℚ :=
  let cs := stripChars s.data
  let (sign, cs2) : ℚ × List Char :=
    match cs with
    | '-' :: rest => (-1, rest)
    | '+' :: rest => (1, rest)
    | rest => (1, rest)
  let mantChars := cs2.takeWhile (fun c => !(c == 'e' || c == 'E'))
  let restChars := cs2.dropWhile (fun c => !(c == 'e' || c == 'E'))
  match parseMantissa mantChars with
  | none => none
  | some m =>
    match restChars with
    | [] => some (sign * m)
    | _ :: expChars =>
      match pyIntOfList expChars with
      | some e => some (sign * m * (10 : ℚ) ^ (e : ℤ))
      | none => none

/-- Sort key used on the helper column `__code_int = pd.to_numeric(code)`:
a non-numeric code coerces to NaN, which `sort_values` places last
(`na_position` defaults to `"last"`), hence `⊤`. -/
def codeKey (c : String) : WithTop ℚ :=
  match pyFloatOfString c with
  | some q => (q : WithTop ℚ)
  | none => ⊤

/-- Sort key for `sorted(..., key=lambda x: int(x))`.  Python raises on a
non-numeric string there; the app only ever passes members of the numeric
code set, the default value 0 is never reached by the claims (which assume
parseable codes). -/
def intKey (c : String) : ℤ :=
  (pyIntOfString c).getD 0

/-! ### Constants of src/app.py -/

/-- `REVENUE_CODES` (a python set; modelled as the list of its elements). -/
def REVENUE_CODES : List String := ["1", "2", "3", "4", "6", "7", "9"]

/-- `EXPENSE_CODES`. -/
def EXPENSE_CODES : List String := ["14", "15", "16", "18", "19", "22", "23"]

/-- `CATEGORY_LABELS.get(code, "")`: canonical IRS labels with default `""`. -/
def CATEGORY_LABELS (c : String) : String :=
  match c with
  | "1" => "Gifts, grants, contributions received"
  | "2" => "Membership fees received"
  | "3" => "Gross sales of inventory"
  | "4" => "Other revenue"
  | "6" => "Investment income"
  | "7" => "Other income"
  | "9" => "Gross receipts from activities related to exempt purpose"
  | "14" => "Professional fees and other payments to independent contractors"
  | "15" => "Occupancy, rent, utilities, and maintenance"
  | "16" => "Disbursements to/for members"
  | "18" => "Office expenses"
  | "19" => "Travel"
  | "22" => "Payments to affiliates"
  | "23" => "Other expenses"
  | _ => ""

/-! ### Generic list helpers -/

/-- `List.filter` through a decidable proposition (pandas boolean-mask
selection `df[mask]`). -/
def filterP {α : Type} (p : α → Prop) [DecidablePred p] (l : List α) : List α :=
  l.filter (fun a => decide (p a))

/-- Sum of a numeric column over a frame (`series.sum()`). -/
def sumBy {α : Type} (f : α → ℚ) (l : List α) : ℚ :=
  (l.map f).sum

/-- Index of the first row satisfying a predicate
(`df.index[mask].tolist()[0]`), `none` when the mask is all-false. -/
def firstIdxWith {α : Type} (p : α → Prop) [DecidablePred p] : List α → Option ℕ
  | [] => none
  | a :: l => if p a then some 0 else (firstIdxWith p l).map (· + 1)

/-- Pointwise update of the adjusted total of the row at a position
(`summary_df.loc[idx, "Adjusted Total Amount"] = old + d`); out-of-range
positions leave the table unchanged. -/
def updateAdj (l : List SummaryRow) (i : ℕ) (d : ℚ) : List SummaryRow :=
  match l, i with
  | [], _ => []
  | r :: rs, 0 => { r with adjusted := r.adjusted + d } :: rs
  | r :: rs, n + 1 => r :: updateAdj rs n d

/-! ### Summary Builder (`build_summary_table`, src/app.py lines 209-220) -/

/-- The groupby key `(IRS Category Code, IRS Category Label)` of a row. -/
def rowKey (r : TxRow) : String × String := (r.code, r.label)

/-- Sum of `Amount` over the rows of one groupby group. -/
def groupTotal (rows : List TxRow) (k : String × String) : ℚ :=
  sumBy TxRow.amount (filterP (fun r => rowKey r = k) rows)

/-- `build_summary_table`: group by `(code, label)` (groupby sorts its keys
lexicographically), sum `Amount` into `Raw Total Amount`, copy it to
`Adjusted Total Amount`, then sort rows by the numeric value of the code. -/
def build_summary_table (rows : List TxRow) : List SummaryRow :=
  let keys := sortByKey (fun k => toLex k) (rows.map rowKey).dedup
  let summary := keys.map (fun k =>
    { code := k.1, label := k.2, raw := groupTotal rows k, adjusted := groupTotal rows k })
  sortByKey (fun r => codeKey r.code) summary

/-! ### `ensure_category_rows_exist` (src/app.py lines 223-245) -/

/-- The set `missing = {c for c in codes_needed if c not in existing}`. -/
def ensureMissing (s : List SummaryRow) (codes_needed : List String) : List String :=
  (codes_needed.filter (fun c => decide (c ∉ s.map SummaryRow.code))).dedup

/-- The synthesized `new_rows`: one zero row with canonical label per missing
code, built in `sorted(missing, key=int)` order. -/
def ensureNewRows (s : List SummaryRow) (codes_needed : List String) : List SummaryRow :=
  (sortByKey intKey (ensureMissing s codes_needed)).map (fun c =>
    { code := c, label := CATEGORY_LABELS c, raw := 0, adjusted := 0 : SummaryRow })

/-- `ensure_category_rows_exist`: synthesize a zero row (canonical label) for
each needed code that has no summary row yet, then re-sort by numeric code.
When nothing is missing the input frame is returned as-is (same object). -/
def ensure_category_rows_exist (s : List SummaryRow) (codes_needed : List String) :
    List SummaryRow :=
  if ensureMissing s codes_needed = [] then s
  else sortByKey (fun r => codeKey r.code) (s ++ ensureNewRows s codes_needed)

/-! ### Currency formatting (`format_currency`, src/app.py lines 116-120) -/

/-- Round to the nearest integer, ties to even (the rounding of python's
fixed-point string formatting).  Python formats the decimal expansion of a
binary float; the exact-rational model rounds the rational itself, which
agrees except on sub-cent binary representation noise no claim exercises. -/
def roundHalfEvenQ (q : ℚ) : ℤ :=
  let n := ⌊q⌋
  let f := q - (n : ℚ)
  if f < 1 / 2 then n
  else if 1 / 2 < f then n + 1
  else if n % 2 = 0 then n else n + 1

/-- Split a reversed digit list into groups of three (thousands grouping,
working from the least significant digit). -/
def chunk3 : List Char → List (List Char)
  | [] => []
  | [a] => [[a]]
  | [a, b] => [[a, b]]
  | [a, b, c] => [[a, b, c]]
  | a :: b :: c :: rest => [a, b, c] :: chunk3 rest

/-- Insert thousands separators into a digit string. -/
def commaGroup (s : String) : String :=
  let groups := chunk3 s.toList.reverse
  String.intercalate "," ((groups.map (fun g => String.mk g.reverse)).reverse)

/-- Render a natural number below 100 with two digits. -/
def twoDigits (n : ℕ) : String :=
  (if n < 10 then "0" else "") ++ toString n

/-- Python `f"{value:,.2f}"`: sign, thousands-grouped integer part of the
absolute value rounded to cents, point, two fraction digits. -/
def pyFormatComma2 (q : ℚ) : String :=
  let cents := (roundHalfEvenQ (|q| * 100)).toNat
  let sign := if q < 0 then "-" else ""
  sign ++ commaGroup (toString (cents / 100)) ++ "." ++ twoDigits (cents % 100)

/-- `format_currency`: `f"${value:,.2f}"`.  The `pd.isna` branch returning
`"$0.00"` guards against NaN, which has no inhabitant in the rational model. -/
def format_currency (q : ℚ) : String :=
  "$" ++ pyFormatComma2 q

/-! ### Reclassification Engine (`apply_gala_ticket_reclass`, lines 248-280) -/

/-- The epsilon of the overdraft guardrail (`1e-9`). -/
def GALA_EPS : ℚ := 1 / 1000000000

/-- The summary actually operated on by `apply_gala_ticket_reclass`: the input
summary with rows for codes 2 and 9 guaranteed to exist. -/
def galaEnsured (s : List SummaryRow) : List SummaryRow :=
  ensure_category_rows_exist s ["2", "9"]

/-- `raw2`: the raw total read for the guardrail, i.e.
`summary_df.loc[idx2[0], "Raw Total Amount"]` of the first code-2 row, and
`0.0` when no code-2 row exists. -/
def galaRaw2 (t : List SummaryRow) : ℚ :=
  match firstIdxWith (fun r => r.code = "2") t with
  | some i =>
    match t.get? i with
    | some r => r.raw
    | none => 0
  | none => 0

/-- The raw total the reclassification guardrail of `apply_gala_ticket_reclass`
reads for the source category (code 2). -/
def sourceRawUsed (s : List SummaryRow) : ℚ :=
  galaRaw2 (galaEnsured s)

/-- Message of the negative-amount validation failure. -/
def galaNegMsg : String := "Gala ticket amount cannot be negative."

/-- `apply_gala_ticket_reclass`: ensure rows 2 and 9 exist, reject a negative
amount, reject an amount exceeding the first code-2 row's raw total by more
than `1e-9`, else subtract the amount from the adjusted total of the first
code-2 row and add it to the adjusted total of the first code-9 row.
`float(gala_amount or 0.0)` is numerically the identity and is dropped.  The
fallthrough arm models the `IndexError` python would raise on a missing row;
it is unreachable because `ensure_category_rows_exist` guarantees both rows. -/
def apply_gala_ticket_reclass (s : List SummaryRow) (gala_amount : ℚ) :
    Except AppError (List SummaryRow) :=
  if gala_amount < 0 then .error (.validationError galaNegMsg)
  else if gala_amount > galaRaw2 (galaEnsured s) + GALA_EPS then
    .error (.validationError
      ("Gala ticket amount (" ++ format_currency gala_amount ++
       ") cannot exceed the raw total for Category 2 (" ++
       format_currency (galaRaw2 (galaEnsured s)) ++ "). Please enter a smaller amount."))
  else
    match firstIdxWith (fun r => r.code = "2") (galaEnsured s),
          firstIdxWith (fun r => r.code = "9") (galaEnsured s) with
    | some i2, some i9 =>
        .ok (updateAdj (updateAdj (galaEnsured s) i2 (-gala_amount)) i9 gala_amount)
    | _, _ => .error (.validationError "IndexError: list index out of range")

/-- Python aliasing model of the call `apply_gala_ticket_reclass(summary, g)`:
the frame is passed by reference; `ensure_category_rows_exist` hands back the
caller's own object when nothing is missing and a freshly concatenated frame
otherwise, and the two `.loc` writes (which run only on the success path)
mutate whichever object that was.  The value of the caller's summary variable
after the call therefore is: unchanged on every failure path, and the updated
frame on success exactly when no row had to be synthesized. -/
def apply_gala_callerAfter (s : List SummaryRow) (g : ℚ) : List SummaryRow :=
  match apply_gala_ticket_reclass s g with
  | .error _ => s
  | .ok u => if ensureMissing s ["2", "9"] = [] then u else s

/-! ### Per-code aggregates over a summary table -/

/-- Sum of `Raw Total Amount` over the rows of one category code. -/
def rawTotCode (l : List SummaryRow) (c : String) : ℚ :=
  sumBy SummaryRow.raw (filterP (fun r => r.code = c) l)

/-- Sum of `Adjusted Total Amount` over the rows of one category code. -/
def adjTotCode (l : List SummaryRow) (c : String) : ℚ :=
  sumBy SummaryRow.adjusted (filterP (fun r => r.code = c) l)

/-! ### Dataset Merger & Validator (`validate_year`, src/app.py lines 191-197) -/

/-- Python `int(x)` on a float: truncation toward zero. -/
def pyInt (q : ℚ) : ℤ :=
  if q < 0 then ⌈q⌉ else ⌊q⌋

/-- `validate_year`: the distinct `Year` values of the merged frame
(`unique()`; no NaN survives `ensure_columns`, so `dropna` drops nothing).
Exactly one distinct value succeeds and is returned through `int(...)`;
any other count fails listing `sorted(years)`. -/
def validate_year (rows : List TxRow) : Except AppError ℤ :=
  let years := (rows.map TxRow.year).dedup
  match years with
  | [y] => .ok (pyInt y)
  | ys => .error (.consistencyYears (sortByKey id ys))

/-! ### Report Renderer (`build_annual_report`, src/app.py lines 306-493) -/

/-- `get_sorted_category_rows`: filter the summary to a code set and sort by
numeric code. -/
def get_sorted_category_rows (summary : List SummaryRow) (desired : List String) :
    List SummaryRow :=
  sortByKey (fun r => codeKey r.code) (filterP (fun r => r.code ∈ desired) summary)

/-- One line of the Revenue/Expense Categories sections. -/
def summaryLine (r : SummaryRow) : String :=
  "  " ++ r.code ++ " - " ++ r.label ++ ": " ++ format_currency r.adjusted

/-- Revenue Categories section body (adjusted totals). -/
def revenueSection (summary : List SummaryRow) : List String :=
  let rs := get_sorted_category_rows summary REVENUE_CODES
  if rs = [] then ["  (No revenue recorded for this period.)"]
  else rs.map summaryLine

/-- Expense Categories section body (adjusted totals). -/
def expenseSection (summary : List SummaryRow) : List String :=
  let rs := get_sorted_category_rows summary EXPENSE_CODES
  if rs = [] then ["  (No expenses recorded for this period.)"]
  else rs.map summaryLine

/-- `clean_str_series(...).replace("", "UNLABELED")` applied to one already
normalized itemization label. -/
def cleanItemLabel (l : String) : String :=
  let t := pyStrip l
  if t = "" then "UNLABELED" else t

/-- Itemization-label grouping of a category block: blank labels mapped to
`UNLABELED`, grouped, summed and sorted alphabetically. -/
def itemizationLines (cat : List TxRow) : List String :=
  let labeled := cat.map (fun r => { r with itemLabel := cleanItemLabel r.itemLabel })
  let labels := sortByKey id (labeled.map TxRow.itemLabel).dedup
  labels.map (fun l =>
    "    " ++ l ++ ": " ++
      format_currency (sumBy TxRow.amount (filterP (fun r => r.itemLabel = l) labeled)))

/-- Sponsor detail of the Category 1 block: group non-blank sponsor names,
sum, sort by name; placeholder when no row names a sponsor. -/
def sponsorLines (cat1 : List TxRow) : List String :=
  if cat1.any (fun r => decide (pyStrip r.sponsorName ≠ "")) then
    let named := filterP (fun r => pyStrip r.sponsorName ≠ "") cat1
    let names := sortByKey id (named.map TxRow.sponsorName).dedup
    names.map (fun n =>
      "    " ++ n ++ ": " ++
        format_currency (sumBy TxRow.amount (filterP (fun r => r.sponsorName = n) named)))
  else ["    (No sponsor names recorded.)"]

/-- The Category 1 block of the Itemized Revenue section (skipped when no
code-1 revenue row exists). -/
def cat1Lines (rev : List TxRow) : List String :=
  let cat1 := filterP (fun r => r.code = "1") rev
  match cat1 with
  | [] => []
  | r :: _ => ("  Category 1 – " ++ r.label ++ ":") :: sponsorLines cat1

/-- The Itemized Revenue block of one non-1 revenue code: skipped when empty
unless it is code 9, which always renders (to carry the synthetic Gala
Tickets line) with the canonical label as fallback. -/
def revCatChunk (rev : List TxRow) (gala : ℚ) (code : String) : List String :=
  let cat := filterP (fun r => r.code = code) rev
  if cat = [] ∧ code ≠ "9" then []
  else
    let label := match cat with
      | r :: _ => r.label
      | [] => CATEGORY_LABELS code
    ["  Category " ++ code ++ " – " ++ label ++ ":"]
      ++ (if code = "9" then ["    Gala Tickets: " ++ format_currency gala] else [])
      ++ (if cat = [] then [] else itemizationLines cat)

/-- Itemized Revenue section body.  `float(gala_ticket_amount or 0.0)` is
numerically the identity on the rational model and is dropped. -/
def itemizedRevenueSection (full : List TxRow) (gala : ℚ) : List String :=
  let rev := filterP (fun r => r.code ∈ REVENUE_CODES) full
  if rev = [] ∧ gala = 0 then ["  (No itemized revenue entries.)"]
  else
    cat1Lines rev
      ++ (sortByKey intKey (REVENUE_CODES.filter (fun c => decide (c ≠ "1")))).flatMap
           (revCatChunk rev gala)

/-- The Category 16 block: one tabular line per transaction, sorted by
(Date, Member/Event Label); the header label is read from the first row
before sorting. -/
def cat16Lines (exp : List TxRow) : List String :=
  let cat16 := filterP (fun r => r.code = "16") exp
  match cat16 with
  | [] => []
  | r :: _ =>
    ("  Category 16 – " ++ r.label ++ " (individual events):")
      :: "    Date | Event | Location | Purpose | Amount"
      :: (sortByKey (fun t => toLex (t.date, t.memberEventLabel)) cat16).map
           (fun t =>
             "    " ++ t.date ++ " | " ++ t.memberEventLabel ++ " | " ++
               t.eventLocation ++ " | " ++ t.eventPurpose ++ " | " ++
               format_currency t.amount)

/-- The Itemized Expenses block of one non-16 expense code: skipped when the
category has no rows or no row carries a non-blank itemization label. -/
def expCatChunk (exp : List TxRow) (code : String) : List String :=
  let cat := filterP (fun r => r.code = code) exp
  match cat with
  | [] => []
  | r :: _ =>
    if ¬ cat.any (fun t => decide (pyStrip t.itemLabel ≠ "")) then []
    else
      ("  Category " ++ code ++ " – " ++ r.label ++ " (consolidated by type):")
        :: itemizationLines cat

/-- Itemized Expenses section body.  The detail lines come first; the source
tracks an `any_detail` flag that is false exactly when every block above was
skipped, i.e. when the accumulated body is empty. -/
def itemizedExpenseSection (full : List TxRow) : List String :=
  let exp := filterP (fun r => r.code ∈ EXPENSE_CODES) full
  if exp = [] then ["  (No itemized expense entries.)"]
  else
    let body := cat16Lines exp
      ++ (sortByKey intKey (EXPENSE_CODES.filter (fun c => decide (c ≠ "16")))).flatMap
           (expCatChunk exp)
    if body = [] then ["  (No itemized expense entries.)"] else body

/-- Flagged-transactions section body. -/
def flaggedSection (full : List TxRow) : List String :=
  let flagged := filterP (fun r => r.needsInvestigation = true) full
  if flagged = [] then ["  (None flagged this period.)"]
  else
    ["  Count of flagged transactions: " ++ toString flagged.length,
     "  Net total of flagged amounts: " ++ format_currency (sumBy TxRow.amount flagged)]

/-- The ordered line list of the annual report (`lines` of
`build_annual_report`, one entry per `lines.append`). -/
def report_lines (year : ℤ) (summary : List SummaryRow) (full : List TxRow)
    (gala : ℚ) : List String :=
  [toString year ++ " Foreign Area Officer Association Annual Financial Report",
   "Foreign Area Officer Association (FAOA)",
   "------------------------------------------------------------------------",
   ""]
  ++ ["Revenue Categories (using Adjusted totals)", "", "REVENUE CATEGORIES"]
  ++ revenueSection summary
  ++ [""]
  ++ ["Expense Categories (using Adjusted totals)", "", "EXPENSE CATEGORIES"]
  ++ expenseSection summary
  ++ ["", "Itemized Revenue (BY IRS CATEGORY)", "", "ITEMIZED REVENUE"]
  ++ itemizedRevenueSection full gala
  ++ ["", "Itemized Expenses (BY IRS CATEGORY)", "", "ITEMIZED EXPENSES"]
  ++ itemizedExpenseSection full
  ++ ["", "NEEDS FURTHER INVESTIGATION (Treasurer Flagged)"]
  ++ flaggedSection full
  ++ ["", "End of report."]

/-- `build_annual_report`: the full report text, lines joined by newline. -/
def build_annual_report (year : ℤ) (summary : List SummaryRow) (full : List TxRow)
    (gala : ℚ) : String :=
  String.intercalate "\n" (report_lines year summary full gala)

/-! ### Row Normalizer (`ensure_columns`, src/app.py lines 135-188)

The uploaded frame is modelled column-wise: an ordered association list from
column name to cell list.  Cells parsed from a CSV are strings or NaN;
`pd.read_csv` may infer numeric dtypes for numeric-looking columns, but every
downstream use either re-coerces with `to_numeric` (Year/Month/Amount) or
re-renders with `astype(str)` (the string columns), so the string/NaN input
model is observationally equivalent for this pipeline.  Output cells can also
be numeric or boolean. -/

/-- One DataFrame cell. -/
inductive Cell where
  | str (s : String)
  | num (q : ℚ)
  | nan
  | bool (b : Bool)
deriving Repr, DecidableEq

/-- A raw DataFrame: columns in order, each a name with its cell list (all of
equal length in any frame produced by parsing). -/
structure RawDf where
  cols : List (String × List Cell)
deriving Repr, DecidableEq

/-- The column names of a frame, in column order. -/
def colNames (df : RawDf) : List String :=
  df.cols.map Prod.fst

/-- The cells of a named column (`df[col]`), `[]` when absent. -/
def getCol (df : RawDf) (c : String) : List Cell :=
  match df.cols.find? (fun p => p.1 == c) with
  | some p => p.2
  | none => []

/-- `df[col] = values`: replace the column in place when it exists, append it
as the last column otherwise (pandas adds new columns at the end). -/
def setCol (df : RawDf) (c : String) (v : List Cell) : RawDf :=
  if c ∈ colNames df then
    ⟨df.cols.map (fun p => if p.1 = c then (c, v) else p)⟩
  else ⟨df.cols ++ [(c, v)]⟩

/-- `len(df)`: the row count, read off the first column. -/
def nrows (df : RawDf) : ℕ :=
  match df.cols with
  | [] => 0
  | p :: _ => p.2.length

/-- `HARD_REQUIRED_COLUMNS`. -/
def HARD_REQUIRED_COLUMNS : List String :=
  ["Year", "Month", "Amount", "IRS Category Code", "IRS Category Label"]

/-- `OPTIONAL_COLUMNS_WITH_DEFAULTS`, in dict insertion order. -/
def OPTIONAL_COLUMNS_WITH_DEFAULTS : List (String × Cell) :=
  [("Date", .str ""), ("Description", .str ""), ("Itemization Label", .str ""),
   ("Member/Event Label", .str ""), ("Event Location", .str ""),
   ("Event Purpose", .str ""), ("Sponsor Name", .str ""),
   ("Potential Sponsorship", .bool false),
   ("Needs Further Investigation", .bool false)]

/-- The string-like columns cleaned by `ensure_columns`. -/
def STRING_CLEAN_COLUMNS : List String :=
  ["Date", "Description", "Itemization Label", "Member/Event Label",
   "Event Location", "Event Purpose", "Sponsor Name",
   "IRS Category Code", "IRS Category Label"]

/-- `pd.to_numeric(cell, errors="coerce")`: numbers pass through, booleans
become 0/1, strings parse or coerce to NaN, NaN stays NaN. -/
def toNumericCell (c : Cell) : Cell :=
  match c with
  | .num q => .num q
  | .bool b => .num (if b then 1 else 0)
  | .nan => .nan
  | .str s =>
    match pyFloatOfString s with
    | some q => .num q
    | none => .nan

/-- `astype(str)` on one cell.  pandas renders NaN as `"nan"` and booleans as
`"True"`/`"False"`; the decimal text python would print for a float is
abstracted by the rational literal rendering, a case no claim reaches (the
CSV input model never places numeric cells in string columns). -/
def cellToPyStr (c : Cell) : String :=
  match c with
  | .str s => s
  | .bool b => if b then "True" else "False"
  | .nan => "nan"
  | .num q => toString q

/-- `clean_str_series` on one cell: `fillna("")`, `astype(str)`, `strip()`. -/
def cleanStrCell (c : Cell) : Cell :=
  match c with
  | .nan => .str ""
  | c => .str (pyStrip (cellToPyStr c))

/-- `coerce_bool_series` on one cell: `astype(str).strip().lower()` matched
against the truthy token set (NaN renders as `"nan"` and is falsy). -/
def coerceBoolCell (c : Cell) : Cell :=
  .bool (pyLower (pyStrip (cellToPyStr c)) ∈ ["true", "1", "yes", "y"])

/-- Whether a cell is NaN (`isna`). -/
def cellIsNan (c : Cell) : Prop := c = Cell.nan

instance : DecidablePred cellIsNan := fun c => inferInstanceAs (Decidable (c = Cell.nan))

/-- `ensure_columns`: schema check, optional-column defaulting, numeric
coercion of Year/Month/Amount with per-column NaN validation, string
cleaning, boolean coercion.  The boolean loop's `else` arm (create the
column) is unreachable because both boolean columns are optional columns
that were already defaulted, but it is modelled as in the source. -/
def ensure_columns (df : RawDf) : Except AppError RawDf :=
  let missing_hard := HARD_REQUIRED_COLUMNS.filter (fun c => decide (c ∉ colNames df))
  if missing_hard ≠ [] then .error (.schemaError (sortByKey id missing_hard))
  else
    let df1 := OPTIONAL_COLUMNS_WITH_DEFAULTS.foldl
      (fun d cd =>
        if cd.1 ∈ colNames d then d
        else setCol d cd.1 (List.replicate (nrows d) cd.2)) df
    let df2 := ["Year", "Month", "Amount"].foldl
      (fun d c => setCol d c ((getCol d c).map toNumericCell)) df1
    if (getCol df2 "Year").any (fun c => decide (cellIsNan c)) then
      .error (.validationError "Some rows have invalid Year values.")
    else if (getCol df2 "Month").any (fun c => decide (cellIsNan c)) then
      .error (.validationError "Some rows have invalid Month values.")
    else if (getCol df2 "Amount").any (fun c => decide (cellIsNan c)) then
      .error (.validationError "Some rows have invalid Amount values.")
    else
      let df3 := STRING_CLEAN_COLUMNS.foldl
        (fun d c =>
          if c ∈ colNames d then setCol d c ((getCol d c).map cleanStrCell) else d) df2
      let df4 := ["Potential Sponsorship", "Needs Further Investigation"].foldl
        (fun d c =>
          if c ∈ colNames d then setCol d c ((getCol d c).map coerceBoolCell)
          else setCol d c (List.replicate (nrows d) (.bool false))) df3
      .ok df4

/-- Python aliasing model of the call `df = ensure_columns(df)`: the frame is
passed by reference and every write inside `ensure_columns` is an in-place
column assignment on that object, which the function finally returns.  After
a successful call the object the caller passed in holds the normalized frame;
on the error paths `st.stop` ends the session (`none`). -/
def ensure_columns_callerAfter (df : RawDf) : Option RawDf :=
  match ensure_columns df with
  | .ok r => some r
  | .error _ => none

deriving instance DecidableEq for Except

/-! ### Concrete fixtures used by witnesses and counterexamples -/

/-- A one-row summary: category 2, raw total 500 (fresh). -/
def srow500 : List SummaryRow :=
  [{ code := "2", label := "M", raw := 500, adjusted := 500 }]

/-- A one-row summary with a negative category-2 raw total. -/
def srowNeg : List SummaryRow :=
  [{ code := "2", label := "M", raw := -1, adjusted := -1 }]

/-- A summary holding the same code 2 under two different labels. -/
def dupSummary : List SummaryRow :=
  [{ code := "2", label := "A", raw := 100, adjusted := 100 },
   { code := "2", label := "B", raw := 50, adjusted := 50 }]

/-- A one-row merged dataset for the year 2024. -/
def txYear2024 : List TxRow :=
  [{ year := 2024, month := 1, amount := 100, code := "2", label := "M" }]

/-- A raw uploaded frame carrying only the five hard-required columns. -/
def demoRawDf : RawDf :=
  ⟨[("Year", [.str "2024"]), ("Month", [.str "1"]), ("Amount", [.str "100"]),
    ("IRS Category Code", [.str "1"]), ("IRS Category Label", [.str "Gifts"])]⟩

/-- The frame `ensure_columns` turns `demoRawDf` into: optional columns
defaulted, Year/Month/Amount numeric. -/
def demoNormalizedDf : RawDf :=
  ⟨[("Year", [.num 2024]), ("Month", [.num 1]), ("Amount", [.num 100]),
    ("IRS Category Code", [.str "1"]), ("IRS Category Label", [.str "Gifts"]),
    ("Date", [.str ""]), ("Description", [.str ""]), ("Itemization Label", [.str ""]),
    ("Member/Event Label", [.str ""]), ("Event Location", [.str ""]),
    ("Event Purpose", [.str ""]), ("Sponsor Name", [.str ""]),
    ("Potential Sponsorship", [.bool false]),
    ("Needs Further Investigation", [.bool false])]⟩

/-- The spec-side ordering predicate of claim C7: summary rows appear in
ascending order of the numeric value of their category code (the value
`pd.to_numeric` assigns to the code string). -/
def sortedByNumericCode (l : List SummaryRow) : Prop :=
  List.Pairwise (fun a b =>
    (pyFloatOfString a.code).getD 0 ≤ (pyFloatOfString b.code).getD 0) l

/-! ## Lemmas -/

/-! ### `filterP` / `sumBy` -/

theorem filterP_cons {α : Type} (p : α → Prop) [DecidablePred p] (a : α) (l : List α) :
    filterP p (a :: l) = if p a then a :: filterP p l else filterP p l := by
  by_cases h : p a <;> simp [filterP, List.filter_cons, h]

theorem mem_filterP {α : Type} (p : α → Prop) [DecidablePred p] (a : α) (l : List α) :
    a ∈ filterP p l ↔ a ∈ l ∧ p a := by
  simp [filterP]

theorem filterP_perm {α : Type} (p : α → Prop) [DecidablePred p] {l l' : List α}
    (h : List.Perm l l') : List.Perm (filterP p l) (filterP p l') :=
  h.filter _

theorem filterP_append {α : Type} (p : α → Prop) [DecidablePred p] (l l' : List α) :
    filterP p (l ++ l') = filterP p l ++ filterP p l' := by
  simp [filterP]

theorem sumBy_cons {α : Type} (f : α → ℚ) (a : α) (l : List α) :
    sumBy f (a :: l) = f a + sumBy f l := by
  simp [sumBy]

theorem sumBy_append {α : Type} (f : α → ℚ) (l l' : List α) :
    sumBy f (l ++ l') = sumBy f l + sumBy f l' := by
  simp [sumBy]

theorem sumBy_perm {α : Type} (f : α → ℚ) {l l' : List α} (h : List.Perm l l') :
    sumBy f l = sumBy f l' :=
  (h.map f).sum_eq

theorem sumBy_eq_zero {α : Type} {f : α → ℚ} {l : List α} (h : ∀ a ∈ l, f a = 0) :
    sumBy f l = 0 := by
  apply List.sum_eq_zero
  intro x hx
  obtain ⟨a, ha, rfl⟩ := List.mem_map.mp hx
  exact h a ha

theorem sumBy_congr {α : Type} {f g : α → ℚ} {l : List α} (h : ∀ a ∈ l, f a = g a) :
    sumBy f l = sumBy g l := by
  unfold sumBy
  rw [List.map_congr_left h]

theorem sumBy_filterP_cons {α : Type} (f : α → ℚ) (p : α → Prop) [DecidablePred p]
    (a : α) (l : List α) :
    sumBy f (filterP p (a :: l)) = (if p a then f a else 0) + sumBy f (filterP p l) := by
  by_cases h : p a <;> simp [filterP_cons, h, sumBy_cons]

/-! ### `firstIdxWith` -/

theorem firstIdxWith_isSome {α : Type} (p : α → Prop) [DecidablePred p] :
    ∀ l : List α, (∃ a ∈ l, p a) → (firstIdxWith p l).isSome = true := by
  intro l
  induction l with
  | nil => rintro ⟨a, ha, -⟩; cases ha
  | cons b l ih =>
    rintro ⟨a, ha, hpa⟩
    by_cases hb : p b
    · simp [firstIdxWith, hb]
    · rcases List.mem_cons.mp ha with rfl | ha'
      · exact absurd hpa hb
      · have := ih ⟨a, ha', hpa⟩
        simp only [firstIdxWith, if_neg hb]
        cases h : firstIdxWith p l with
        | none => rw [h] at this; simp at this
        | some i => simp

theorem firstIdxWith_spec {α : Type} (p : α → Prop) [DecidablePred p] :
    ∀ (l : List α) (i : ℕ), firstIdxWith p l = some i →
      ∃ r, l.get? i = some r ∧ p r := by
  intro l
  induction l with
  | nil => intro i h; simp [firstIdxWith] at h
  | cons b l ih =>
    intro i h
    by_cases hb : p b
    · simp only [firstIdxWith, if_pos hb, Option.some.injEq] at h
      exact ⟨b, by simp [← h], hb⟩
    · simp only [firstIdxWith, if_neg hb] at h
      cases hfi : firstIdxWith p l with
      | none => rw [hfi] at h; simp at h
      | some j =>
        rw [hfi] at h
        simp only [Option.map_some', Option.some.injEq] at h
        obtain ⟨r, hr, hpr⟩ := ih j hfi
        exact ⟨r, by simpa [← h] using hr, hpr⟩

/-! ### `updateAdj` -/

theorem updateAdj_length (l : List SummaryRow) (i : ℕ) (d : ℚ) :
    (updateAdj l i d).length = l.length := by
  induction l generalizing i with
  | nil => rfl
  | cons r rs ih =>
    cases i with
    | zero => rfl
    | succ n => simp [updateAdj, ih]

theorem get?_updateAdj_self {l : List SummaryRow} {i : ℕ} {r : SummaryRow} (d : ℚ)
    (h : l.get? i = some r) :
    (updateAdj l i d).get? i = some { r with adjusted := r.adjusted + d } := by
  induction l generalizing i with
  | nil => simp at h
  | cons b rs ih =>
    cases i with
    | zero => simp_all [updateAdj]
    | succ n => simpa [updateAdj] using ih h

theorem get?_updateAdj_ne (l : List SummaryRow) (d : ℚ) {i j : ℕ} (h : j ≠ i) :
    (updateAdj l i d).get? j = l.get? j := by
  induction l generalizing i j with
  | nil => rfl
  | cons b rs ih =>
    cases i with
    | zero =>
      cases j with
      | zero => exact absurd rfl h
      | succ m => simp [updateAdj]
    | succ n =>
      cases j with
      | zero => simp [updateAdj]
      | succ m => simpa [updateAdj] using ih (fun hc => h (by rw [hc]))

theorem rawTot_cons (r : SummaryRow) (rs : List SummaryRow) (c : String) :
    rawTotCode (r :: rs) c = (if r.code = c then r.raw else 0) + rawTotCode rs c := by
  rw [rawTotCode, sumBy_filterP_cons]
  rfl

theorem adjTot_cons (r : SummaryRow) (rs : List SummaryRow) (c : String) :
    adjTotCode (r :: rs) c = (if r.code = c then r.adjusted else 0) + adjTotCode rs c := by
  rw [adjTotCode, sumBy_filterP_cons]
  rfl

theorem rawTot_updateAdj (l : List SummaryRow) (i : ℕ) (d : ℚ) (c : String) :
    rawTotCode (updateAdj l i d) c = rawTotCode l c := by
  induction l generalizing i with
  | nil => rfl
  | cons r rs ih =>
    cases i with
    | zero =>
      show rawTotCode ({ r with adjusted := r.adjusted + d } :: rs) c = _
      rw [rawTot_cons, rawTot_cons]
    | succ n =>
      show rawTotCode (r :: updateAdj rs n d) c = _
      rw [rawTot_cons, rawTot_cons, ih]

theorem adjTot_updateAdj (l : List SummaryRow) (i : ℕ) (d : ℚ) (c : String) :
    adjTotCode (updateAdj l i d) c =
      adjTotCode l c +
        (match l.get? i with
         | some r => if r.code = c then d else 0
         | none => 0) := by
  induction l generalizing i with
  | nil => simp [updateAdj, adjTotCode, filterP, sumBy]
  | cons r rs ih =>
    cases i with
    | zero =>
      show adjTotCode ({ r with adjusted := r.adjusted + d } :: rs) c = _
      rw [adjTot_cons, adjTot_cons]
      show (if r.code = c then r.adjusted + d else 0) + _ =
        (if r.code = c then r.adjusted else 0) + _ + (if r.code = c then d else 0)
      by_cases h : r.code = c
      · rw [if_pos h, if_pos h, if_pos h]
        ring
      · rw [if_neg h, if_neg h, if_neg h]
        ring
    | succ n =>
      show adjTotCode (r :: updateAdj rs n d) c = _
      rw [adjTot_cons, adjTot_cons, ih]
      show _ = _ + (match rs.get? n with
        | some t => if t.code = c then d else 0
        | none => 0)
      ring

/-! ### `ensure_category_rows_exist` -/

theorem ensure_eq_of_no_missing {s : List SummaryRow} {codes : List String}
    (h : ensureMissing s codes = []) :
    ensure_category_rows_exist s codes = s := by
  rw [ensure_category_rows_exist, if_pos h]

theorem ensure_perm_append {s : List SummaryRow} {codes : List String}
    (h : ensureMissing s codes ≠ []) :
    List.Perm (ensure_category_rows_exist s codes) (s ++ ensureNewRows s codes) := by
  rw [ensure_category_rows_exist, if_neg h]
  exact sortByKey_perm _ _

theorem ensureNewRows_zero {s : List SummaryRow} {codes : List String} {r : SummaryRow}
    (h : r ∈ ensureNewRows s codes) : r.raw = 0 ∧ r.adjusted = 0 := by
  obtain ⟨c, -, rfl⟩ := List.mem_map.mp h
  exact ⟨rfl, rfl⟩

theorem rawTot_ensure (s : List SummaryRow) (codes : List String) (c : String) :
    rawTotCode (ensure_category_rows_exist s codes) c = rawTotCode s c := by
  by_cases h : ensureMissing s codes = []
  · rw [ensure_eq_of_no_missing h]
  · rw [rawTotCode, sumBy_perm _ (filterP_perm _ (ensure_perm_append h)),
      filterP_append, sumBy_append]
    have hz : sumBy SummaryRow.raw (filterP (fun r => r.code = c) (ensureNewRows s codes)) = 0 :=
      sumBy_eq_zero (fun r hr => (ensureNewRows_zero ((mem_filterP _ _ _).mp hr).1).1)
    rw [hz]
    show rawTotCode s c + 0 = rawTotCode s c
    ring

theorem adjTot_ensure (s : List SummaryRow) (codes : List String) (c : String) :
    adjTotCode (ensure_category_rows_exist s codes) c = adjTotCode s c := by
  by_cases h : ensureMissing s codes = []
  · rw [ensure_eq_of_no_missing h]
  · rw [adjTotCode, sumBy_perm _ (filterP_perm _ (ensure_perm_append h)),
      filterP_append, sumBy_append]
    have hz : sumBy SummaryRow.adjusted
        (filterP (fun r => r.code = c) (ensureNewRows s codes)) = 0 :=
      sumBy_eq_zero (fun r hr => (ensureNewRows_zero ((mem_filterP _ _ _).mp hr).1).2)
    rw [hz]
    show adjTotCode s c + 0 = adjTotCode s c
    ring

theorem ensure_fresh {s : List SummaryRow} {codes : List String}
    (hfresh : ∀ r ∈ s, r.adjusted = r.raw) :
    ∀ r ∈ ensure_category_rows_exist s codes, r.adjusted = r.raw := by
  intro r hr
  by_cases h : ensureMissing s codes = []
  · rw [ensure_eq_of_no_missing h] at hr
    exact hfresh r hr
  · have hr' := (ensure_perm_append h).mem_iff.mp hr
    rcases List.mem_append.mp hr' with hs | hn
    · exact hfresh r hs
    · obtain ⟨h1, h2⟩ := ensureNewRows_zero hn
      rw [h1, h2]

theorem exists_code_ensure {s : List SummaryRow} {codes : List String} {c : String}
    (hc : c ∈ codes) :
    ∃ r ∈ ensure_category_rows_exist s codes, r.code = c := by
  by_cases h : ensureMissing s codes = []
  · rw [ensure_eq_of_no_missing h]
    have : c ∈ s.map SummaryRow.code := by
      by_contra hcn
      have : c ∈ ensureMissing s codes := by
        rw [ensureMissing, List.mem_dedup, List.mem_filter]
        exact ⟨hc, by simpa using hcn⟩
      rw [h] at this
      cases this
    obtain ⟨r, hr, rfl⟩ := List.mem_map.mp this
    exact ⟨r, hr, rfl⟩
  · by_cases hex : c ∈ s.map SummaryRow.code
    · obtain ⟨r, hr, rfl⟩ := List.mem_map.mp hex
      exact ⟨r, (ensure_perm_append h).mem_iff.mpr (List.mem_append.mpr (Or.inl hr)), rfl⟩
    · have hmiss : c ∈ ensureMissing s codes := by
        rw [ensureMissing, List.mem_dedup, List.mem_filter]
        exact ⟨hc, by simpa using hex⟩
      have hsorted : c ∈ sortByKey intKey (ensureMissing s codes) :=
        (sortByKey_perm _ _).mem_iff.mpr hmiss
      refine ⟨{ code := c, label := CATEGORY_LABELS c, raw := 0, adjusted := 0 },
        (ensure_perm_append h).mem_iff.mpr (List.mem_append.mpr (Or.inr ?_)), rfl⟩
      exact List.mem_map.mpr ⟨c, hsorted, rfl⟩

theorem code2_mem_galaEnsured (s : List SummaryRow) :
    ∃ r ∈ galaEnsured s, r.code = "2" :=
  exists_code_ensure (by simp)

theorem code9_mem_galaEnsured (s : List SummaryRow) :
    ∃ r ∈ galaEnsured s, r.code = "9" :=
  exists_code_ensure (by simp)

/-! ### Characterization of `apply_gala_ticket_reclass` -/

theorem firstIdx2_some (s : List SummaryRow) :
    ∃ i2, firstIdxWith (fun r => r.code = "2") (galaEnsured s) = some i2 := by
  have := firstIdxWith_isSome (fun r => r.code = "2") (galaEnsured s) (code2_mem_galaEnsured s)
  cases h : firstIdxWith (fun r => r.code = "2") (galaEnsured s) with
  | none => rw [h] at this; simp at this
  | some i => exact ⟨i, rfl⟩

theorem firstIdx9_some (s : List SummaryRow) :
    ∃ i9, firstIdxWith (fun r => r.code = "9") (galaEnsured s) = some i9 := by
  have := firstIdxWith_isSome (fun r => r.code = "9") (galaEnsured s) (code9_mem_galaEnsured s)
  cases h : firstIdxWith (fun r => r.code = "9") (galaEnsured s) with
  | none => rw [h] at this; simp at this
  | some i => exact ⟨i, rfl⟩

theorem apply_gala_eq_ok {s : List SummaryRow} {g : ℚ} {i2 i9 : ℕ}
    (h0 : ¬ g < 0) (hle : ¬ g > galaRaw2 (galaEnsured s) + GALA_EPS)
    (h2 : firstIdxWith (fun r => r.code = "2") (galaEnsured s) = some i2)
    (h9 : firstIdxWith (fun r => r.code = "9") (galaEnsured s) = some i9) :
    apply_gala_ticket_reclass s g =
      .ok (updateAdj (updateAdj (galaEnsured s) i2 (-g)) i9 g) := by
  rw [apply_gala_ticket_reclass, if_neg h0, if_neg hle, h2, h9]

theorem apply_gala_neg {s : List SummaryRow} {g : ℚ} (h : g < 0) :
    apply_gala_ticket_reclass s g = .error (.validationError galaNegMsg) := by
  rw [apply_gala_ticket_reclass, if_pos h]

theorem apply_gala_over {s : List SummaryRow} {g : ℚ}
    (h0 : ¬ g < 0) (h : g > galaRaw2 (galaEnsured s) + GALA_EPS) :
    apply_gala_ticket_reclass s g = .error (.validationError
      ("Gala ticket amount (" ++ format_currency g ++
       ") cannot exceed the raw total for Category 2 (" ++
       format_currency (galaRaw2 (galaEnsured s)) ++ "). Please enter a smaller amount.")) := by
  rw [apply_gala_ticket_reclass, if_neg h0, if_pos h]

theorem apply_gala_ok_iff (s : List SummaryRow) (g : ℚ) :
    (∃ u, apply_gala_ticket_reclass s g = .ok u) ↔
      0 ≤ g ∧ g ≤ galaRaw2 (galaEnsured s) + GALA_EPS := by
  constructor
  · rintro ⟨u, hu⟩
    by_cases h0 : g < 0
    · rw [apply_gala_neg h0] at hu
      cases hu
    · by_cases hover : g > galaRaw2 (galaEnsured s) + GALA_EPS
      · rw [apply_gala_over h0 hover] at hu
        cases hu
      · exact ⟨le_of_not_lt h0, le_of_not_lt hover⟩
  · rintro ⟨h0, hle⟩
    obtain ⟨i2, h2⟩ := firstIdx2_some s
    obtain ⟨i9, h9⟩ := firstIdx9_some s
    exact ⟨_, apply_gala_eq_ok (not_lt.mpr h0) (not_lt.mpr hle) h2 h9⟩

theorem adjTot_eq_rawTot_of_fresh {l : List SummaryRow}
    (h : ∀ r ∈ l, r.adjusted = r.raw) (c : String) :
    adjTotCode l c = rawTotCode l c :=
  sumBy_congr (fun r hr => h r ((mem_filterP _ _ _).mp hr).1)

theorem firstIdx_ne {s : List SummaryRow} {i2 i9 : ℕ}
    (h2 : firstIdxWith (fun r => r.code = "2") (galaEnsured s) = some i2)
    (h9 : firstIdxWith (fun r => r.code = "9") (galaEnsured s) = some i9) :
    i2 ≠ i9 := by
  obtain ⟨r2, hr2, hc2⟩ := firstIdxWith_spec _ _ _ h2
  obtain ⟨r9, hr9, hc9⟩ := firstIdxWith_spec _ _ _ h9
  intro hEq
  rw [hEq, hr9] at hr2
  have hrr : r9 = r2 := by injection hr2
  rw [← hrr, hc9] at hc2
  exact (by decide : ("9" : String) ≠ "2") hc2

/-- Per-code adjusted totals of the successful reclassification result, in
terms of the ensured table. -/
theorem adjTot_apply_ok {s : List SummaryRow} (g : ℚ) {i2 i9 : ℕ}
    (h2 : firstIdxWith (fun r => r.code = "2") (galaEnsured s) = some i2)
    (h9 : firstIdxWith (fun r => r.code = "9") (galaEnsured s) = some i9)
    (c : String) :
    adjTotCode (updateAdj (updateAdj (galaEnsured s) i2 (-g)) i9 g) c =
      adjTotCode (galaEnsured s) c +
        (if c = "2" then -g else 0) + (if c = "9" then g else 0) := by
  obtain ⟨r2, hr2, hc2⟩ := firstIdxWith_spec _ _ _ h2
  obtain ⟨r9, hr9, hc9⟩ := firstIdxWith_spec _ _ _ h9
  have hne : i2 ≠ i9 := firstIdx_ne h2 h9
  rw [adjTot_updateAdj, adjTot_updateAdj]
  rw [get?_updateAdj_ne _ _ (Ne.symm hne), hr9, hr2]
  have e9 : (if r9.code = c then g else 0) = (if c = "9" then g else 0) := by
    by_cases h : c = "9" <;> simp [hc9, h, eq_comm]
  have e2 : (if r2.code = c then -g else 0) = (if c = "2" then -g else 0) := by
    by_cases h : c = "2" <;> simp [hc2, h, eq_comm]
  show adjTotCode (galaEnsured s) c + (if r2.code = c then -g else 0) +
      (if r9.code = c then g else 0) = _
  rw [e2, e9]

/-- Claim C1: on a fresh summary (adjusted equals raw everywhere, as
`build_summary_table` produces) and a transfer amount between 0 and the raw
total the code reads for the source category, the reclassification succeeds,
the combined adjusted total of codes 2 and 9 equals their combined raw total,
the source adjusted total drops by the amount, the target adjusted total
rises by it, and the raw totals of both codes are unchanged. -/
theorem claim_C1_reclass_conservation (s : List SummaryRow) (g : ℚ)
    (hfresh : ∀ r ∈ s, r.adjusted = r.raw)
    (h0 : 0 ≤ g) (hle : g ≤ sourceRawUsed s) :
    ∃ u, apply_gala_ticket_reclass s g = .ok u ∧
      adjTotCode u "2" + adjTotCode u "9" = rawTotCode u "2" + rawTotCode u "9" ∧
      adjTotCode u "2" = rawTotCode u "2" - g ∧
      adjTotCode u "9" = rawTotCode u "9" + g ∧
      rawTotCode u "2" = rawTotCode s "2" ∧
      rawTotCode u "9" = rawTotCode s "9" := by
  obtain ⟨i2, h2⟩ := firstIdx2_some s
  obtain ⟨i9, h9⟩ := firstIdx9_some s
  have heps : (0 : ℚ) < GALA_EPS := by norm_num [GALA_EPS]
  have hover : ¬ g > galaRaw2 (galaEnsured s) + GALA_EPS := by
    have : g ≤ galaRaw2 (galaEnsured s) := hle
    exact not_lt.mpr (le_trans this (by linarith))
  refine ⟨_, apply_gala_eq_ok (not_lt.mpr h0) hover h2 h9, ?_⟩
  have hfreshT : ∀ r ∈ ensure_category_rows_exist s ["2", "9"], r.adjusted = r.raw :=
    ensure_fresh hfresh
  have hadj2 := adjTot_apply_ok g h2 h9 "2"
  rw [if_pos rfl, if_neg (by decide : ¬ ("2" : String) = "9")] at hadj2
  have hadj9 := adjTot_apply_ok g h2 h9 "9"
  rw [if_neg (by decide : ¬ ("9" : String) = "2"), if_pos rfl] at hadj9
  have hraw : ∀ c, rawTotCode (updateAdj (updateAdj (galaEnsured s) i2 (-g)) i9 g) c
      = rawTotCode s c := by
    intro c
    rw [rawTot_updateAdj, rawTot_updateAdj]
    exact rawTot_ensure s _ c
  have hfr2 : adjTotCode (galaEnsured s) "2" = rawTotCode (galaEnsured s) "2" :=
    adjTot_eq_rawTot_of_fresh hfreshT "2"
  have hfr9 : adjTotCode (galaEnsured s) "9" = rawTotCode (galaEnsured s) "9" :=
    adjTot_eq_rawTot_of_fresh hfreshT "9"
  have hre2 : rawTotCode (galaEnsured s) "2" = rawTotCode s "2" := rawTot_ensure s _ "2"
  have hre9 : rawTotCode (galaEnsured s) "9" = rawTotCode s "9" := rawTot_ensure s _ "9"
  refine ⟨?_, ?_, ?_, hraw "2", hraw "9"⟩
  · rw [hadj2, hadj9, hraw "2", hraw "9", hfr2, hfr9, hre2, hre9]
    ring
  · rw [hadj2, hraw "2", hfr2, hre2]
    ring
  · rw [hadj9, hraw "9", hfr9, hre9]
    ring

/-- Witness for claim C1 at a concrete fresh summary (raw 500 in category 2)
and transfer amount 120. -/
theorem claim_C1_reclass_conservation_witness :
    ∃ u, apply_gala_ticket_reclass
        srow500 120 = .ok u ∧
      adjTotCode u "2" + adjTotCode u "9" = rawTotCode u "2" + rawTotCode u "9" ∧
      adjTotCode u "2" = rawTotCode u "2" - 120 ∧
      adjTotCode u "9" = rawTotCode u "9" + 120 ∧
      rawTotCode u "2" =
        rawTotCode srow500 "2" ∧
      rawTotCode u "9" =
        rawTotCode srow500 "9" :=
  claim_C1_reclass_conservation _ 120 (by decide) (by norm_num) (by decide)

/-- Claim C2: a negative transfer amount fails with the negative-amount
validation error, an amount exceeding the raw total the code reads for the
source category by more than `1e-9` fails with a validation error, and on
either failure path the caller's summary object is untouched. -/
theorem claim_C2_reclass_guardrails (s : List SummaryRow) (g : ℚ) :
    (g < 0 →
      apply_gala_ticket_reclass s g = .error (.validationError galaNegMsg) ∧
      apply_gala_callerAfter s g = s) ∧
    (sourceRawUsed s + GALA_EPS < g →
      (∃ m, apply_gala_ticket_reclass s g = .error (.validationError m)) ∧
      apply_gala_callerAfter s g = s) := by
  constructor
  · intro hneg
    have happ : apply_gala_ticket_reclass s g = .error (.validationError galaNegMsg) :=
      apply_gala_neg hneg
    refine ⟨happ, ?_⟩
    rw [apply_gala_callerAfter, happ]
  · intro hover
    by_cases hneg : g < 0
    · have happ : apply_gala_ticket_reclass s g = .error (.validationError galaNegMsg) :=
        apply_gala_neg hneg
      exact ⟨⟨_, happ⟩, by rw [apply_gala_callerAfter, happ]⟩
    · have happ := apply_gala_over hneg hover
      exact ⟨⟨_, happ⟩, by rw [apply_gala_callerAfter, happ]⟩

/-- Witness for claim C2: amount `-3` and amount `600` against a category-2
raw total of `500` (the end-to-end scenario C of the spec). -/
theorem claim_C2_reclass_guardrails_witness :
    (apply_gala_ticket_reclass
        srow500 (-3) =
      .error (.validationError galaNegMsg) ∧
     apply_gala_callerAfter
        srow500 (-3) =
      srow500) ∧
    ((∃ m, apply_gala_ticket_reclass
        srow500 600 =
      .error (.validationError m)) ∧
     apply_gala_callerAfter
        srow500 600 =
      srow500) :=
  ⟨(claim_C2_reclass_guardrails _ _).1 (by norm_num),
   (claim_C2_reclass_guardrails _ _).2 (by decide)⟩

set_option maxRecDepth 8000
set_option maxHeartbeats 1000000

/-- Counterexample to claim C4 as stated: on a summary whose category-2 raw
total is negative (amounts are not sign-constrained), a transfer amount of 0
does not leave the adjusted totals unchanged — the call fails on the
overdraft guardrail (`0 > raw2 + 1e-9`) and aborts the session. -/
theorem claim_C4_counterexample :
    apply_gala_ticket_reclass srowNeg 0 =
      .error (.validationError
        ("Gala ticket amount ($0.00) cannot exceed the raw total for Category 2 " ++
         "($-1.00). Please enter a smaller amount.")) := by
  decide

set_option maxRecDepth 512
set_option maxHeartbeats 400000

/-- Claim C4 as amended: with transfer amount 0 the reclassification is a
no-op on the per-code adjusted totals for every summary whose guardrail raw
total for category 2 is at least `-1e-9` (in particular, for every summary
with nonnegative raw totals); below that threshold the amount-0 call fails
instead of being a no-op. -/
theorem claim_C4_amended (s : List SummaryRow)
    (h : -GALA_EPS ≤ sourceRawUsed s) :
    ∃ u, apply_gala_ticket_reclass s 0 = .ok u ∧
      ∀ c, adjTotCode u c = adjTotCode s c := by
  obtain ⟨i2, h2⟩ := firstIdx2_some s
  obtain ⟨i9, h9⟩ := firstIdx9_some s
  have h0 : ¬ (0 : ℚ) < 0 := lt_irrefl 0
  have hover : ¬ (0 : ℚ) > galaRaw2 (galaEnsured s) + GALA_EPS := by
    have hs : sourceRawUsed s = galaRaw2 (galaEnsured s) := rfl
    rw [hs] at h
    exact not_lt.mpr (by linarith)
  refine ⟨_, apply_gala_eq_ok h0 hover h2 h9, ?_⟩
  intro c
  rw [neg_zero]
  have hadj := adjTot_apply_ok 0 h2 h9 c
  rw [neg_zero, ite_self, ite_self, add_zero, add_zero] at hadj
  rw [hadj]
  exact adjTot_ensure s _ c

/-- Witness for the amended claim C4 at a concrete summary with raw total 500
in category 2. -/
theorem claim_C4_amended_witness :
    ∃ u, apply_gala_ticket_reclass
        srow500 0 = .ok u ∧
      ∀ c, adjTotCode u c =
        adjTotCode srow500 c :=
  claim_C4_amended _ (by decide)

/-- Claim C10: with duplicate code-2 rows in the summary (same code under
several labels), the guardrail reads its raw total from the first code-2 row
of the ensured table only, the subtraction lands on that first row only, the
addition lands on the first code-9 row only, and every other row — the other
code-2 rows included — is returned unchanged. -/
theorem claim_C10_first_row_semantics (s : List SummaryRow) (g : ℚ)
    (_hdup : 2 ≤ (filterP (fun r => r.code = "2") s).length) :
    ∃ (i2 i9 : ℕ) (r2 r9 : SummaryRow),
      firstIdxWith (fun r => r.code = "2") (galaEnsured s) = some i2 ∧
      firstIdxWith (fun r => r.code = "9") (galaEnsured s) = some i9 ∧
      (galaEnsured s).get? i2 = some r2 ∧ r2.code = "2" ∧
      (galaEnsured s).get? i9 = some r9 ∧ r9.code = "9" ∧
      ((∃ u, apply_gala_ticket_reclass s g = .ok u) ↔ 0 ≤ g ∧ g ≤ r2.raw + GALA_EPS) ∧
      (∀ u, apply_gala_ticket_reclass s g = .ok u →
        u.get? i2 = some { r2 with adjusted := r2.adjusted - g } ∧
        u.get? i9 = some { r9 with adjusted := r9.adjusted + g } ∧
        ∀ j, j ≠ i2 → j ≠ i9 → u.get? j = (galaEnsured s).get? j) := by
  obtain ⟨i2, h2⟩ := firstIdx2_some s
  obtain ⟨i9, h9⟩ := firstIdx9_some s
  obtain ⟨r2, hr2, hc2⟩ := firstIdxWith_spec _ _ _ h2
  obtain ⟨r9, hr9, hc9⟩ := firstIdxWith_spec _ _ _ h9
  have hne : i2 ≠ i9 := firstIdx_ne h2 h9
  have hraw2 : galaRaw2 (galaEnsured s) = r2.raw := by
    simp only [galaRaw2, h2, hr2]
  refine ⟨i2, i9, r2, r9, h2, h9, hr2, hc2, hr9, hc9, ?_, ?_⟩
  · rw [apply_gala_ok_iff, hraw2]
  · intro u hu
    have hcond := (apply_gala_ok_iff s g).mp ⟨u, hu⟩
    have happ := apply_gala_eq_ok (not_lt.mpr hcond.1)
      (not_lt.mpr (hraw2 ▸ hcond.2)) h2 h9
    have hEq : updateAdj (updateAdj (galaEnsured s) i2 (-g)) i9 g = u := by
      have := happ.symm.trans hu
      injection this
    subst hEq
    refine ⟨?_, ?_, ?_⟩
    · rw [get?_updateAdj_ne _ _ hne, get?_updateAdj_self (-g) hr2, sub_eq_add_neg]
    · have hmid : (updateAdj (galaEnsured s) i2 (-g)).get? i9 = some r9 := by
        rw [get?_updateAdj_ne _ _ (Ne.symm hne), hr9]
      rw [get?_updateAdj_self g hmid]
    · intro j hj2 hj9
      rw [get?_updateAdj_ne _ _ hj9, get?_updateAdj_ne _ _ hj2]

/-- Witness for claim C10 at a summary holding two code-2 rows under distinct
labels, transfer amount 30. -/
theorem claim_C10_first_row_semantics_witness :
    2 ≤ (filterP (fun r => r.code = "2")
        dupSummary).length ∧
    (∃ (i2 i9 : ℕ) (r2 r9 : SummaryRow),
      firstIdxWith (fun r => r.code = "2")
        (galaEnsured dupSummary) = some i2 ∧
      firstIdxWith (fun r => r.code = "9")
        (galaEnsured dupSummary) = some i9 ∧
      (galaEnsured dupSummary).get? i2 =
          some r2 ∧ r2.code = "2" ∧
      (galaEnsured dupSummary).get? i9 =
          some r9 ∧ r9.code = "9" ∧
      ((∃ u, apply_gala_ticket_reclass
          dupSummary 30 = .ok u) ↔
        0 ≤ (30 : ℚ) ∧ (30 : ℚ) ≤ r2.raw + GALA_EPS) ∧
      (∀ u, apply_gala_ticket_reclass
          dupSummary 30 = .ok u →
        u.get? i2 = some { r2 with adjusted := r2.adjusted - 30 } ∧
        u.get? i9 = some { r9 with adjusted := r9.adjusted + 30 } ∧
        ∀ j, j ≠ i2 → j ≠ i9 →
          u.get? j = (galaEnsured
            dupSummary).get? j)) :=
  ⟨by decide, claim_C10_first_row_semantics _ 30 (by decide)⟩

/-! ### Conservation of the summed amounts (claim C3) -/

theorem sum_map_add_q {κ : Type} (f g : κ → ℚ) (l : List κ) :
    (l.map (fun k => f k + g k)).sum = (l.map f).sum + (l.map g).sum := by
  induction l with
  | nil => simp
  | cons a l ih =>
    simp only [List.map_cons, List.sum_cons, ih]
    ring

theorem sum_map_indicator {κ : Type} [DecidableEq κ] (l : List κ) (k0 : κ) (a : ℚ)
    (hnd : l.Nodup) (hmem : k0 ∈ l) :
    (l.map (fun k => if k0 = k then a else 0)).sum = a := by
  induction l with
  | nil => cases hmem
  | cons b l ih =>
    rcases List.mem_cons.mp hmem with rfl | hmem'
    · simp only [List.map_cons, List.sum_cons, if_pos rfl]
      have hnotin : k0 ∉ l := (List.nodup_cons.mp hnd).1
      have hz : (l.map (fun k => if k0 = k then a else 0)).sum = 0 := by
        apply List.sum_eq_zero
        intro x hx
        obtain ⟨k, hk, rfl⟩ := List.mem_map.mp hx
        rw [if_neg]
        intro h
        exact hnotin (h ▸ hk)
      rw [hz]
      simp
    · have hne : k0 ≠ b := by
        rintro rfl
        exact (List.nodup_cons.mp hnd).1 hmem'
      simp only [List.map_cons, List.sum_cons, if_neg hne]
      rw [ih (List.nodup_cons.mp hnd).2 hmem']
      ring

/-- Summing the per-group totals over any duplicate-free key list covering
every row recovers the total amount. -/
theorem sum_group_eq (ks : List (String × String)) (rows : List TxRow)
    (hnd : ks.Nodup) (hcov : ∀ r ∈ rows, rowKey r ∈ ks) :
    (ks.map (fun k => groupTotal rows k)).sum = sumBy TxRow.amount rows := by
  induction rows with
  | nil =>
    have hz : ∀ k ∈ ks, groupTotal ([] : List TxRow) k = 0 := by
      intro k _
      rfl
    have : (ks.map (fun k => groupTotal ([] : List TxRow) k)).sum = 0 := by
      apply List.sum_eq_zero
      intro x hx
      obtain ⟨k, hk, rfl⟩ := List.mem_map.mp hx
      exact hz k hk
    rw [this]
    rfl
  | cons r rows ih =>
    have hcov' : ∀ t ∈ rows, rowKey t ∈ ks :=
      fun t ht => hcov t (List.mem_cons_of_mem _ ht)
    have hterm : ∀ k, groupTotal (r :: rows) k =
        (if rowKey r = k then r.amount else 0) + groupTotal rows k := by
      intro k
      rw [groupTotal, sumBy_filterP_cons]
      rfl
    calc (ks.map (fun k => groupTotal (r :: rows) k)).sum
        = (ks.map (fun k =>
            (if rowKey r = k then r.amount else 0) + groupTotal rows k)).sum := by
          rw [List.map_congr_left (fun k _ => hterm k)]
      _ = (ks.map (fun k => if rowKey r = k then r.amount else 0)).sum +
            (ks.map (fun k => groupTotal rows k)).sum := sum_map_add_q _ _ ks
      _ = r.amount + sumBy TxRow.amount rows := by
          rw [sum_map_indicator ks (rowKey r) r.amount hnd
            (hcov r (List.mem_cons_self r rows)), ih hcov']
      _ = sumBy TxRow.amount (r :: rows) := (sumBy_cons _ _ _).symm

/-- The summary rows of `build_summary_table rows`, before the final sort. -/
theorem build_summary_table_perm (rows : List TxRow) :
    List.Perm (build_summary_table rows)
      ((sortByKey (fun k => toLex k) (rows.map rowKey).dedup).map (fun k =>
        { code := k.1, label := k.2, raw := groupTotal rows k,
          adjusted := groupTotal rows k })) :=
  sortByKey_perm _ _

/-- Claim C3: the raw totals of the summary conserve the total of the input
amounts, and every summary row starts with its adjusted total equal to its
raw total. -/
theorem claim_C3_conservation (rows : List TxRow) :
    sumBy SummaryRow.raw (build_summary_table rows) = sumBy TxRow.amount rows ∧
    ∀ s ∈ build_summary_table rows, s.adjusted = s.raw := by
  have hperm := build_summary_table_perm rows
  have hkeysperm := sortByKey_perm (fun k : String × String => toLex k)
    (rows.map rowKey).dedup
  constructor
  · rw [sumBy_perm _ hperm]
    rw [sumBy, List.map_map]
    have : (SummaryRow.raw ∘ fun k : String × String =>
        ({ code := k.1, label := k.2, raw := groupTotal rows k,
           adjusted := groupTotal rows k } : SummaryRow)) =
        fun k => groupTotal rows k := rfl
    rw [this]
    apply sum_group_eq
    · exact hkeysperm.nodup_iff.mpr (List.nodup_dedup _)
    · intro r hr
      exact hkeysperm.mem_iff.mpr (List.mem_dedup.mpr
        (List.mem_map.mpr ⟨r, hr, rfl⟩))
  · intro s hs
    have := hperm.mem_iff.mp hs
    obtain ⟨k, -, rfl⟩ := List.mem_map.mp this
    rfl

/-! ### `validate_year` (claim C5) -/

/-- Counterexample to claim C5 as stated: the empty merged dataset (header-only
uploads) has zero distinct years, not two or more, yet `validate_year` fails
(`len(years) != 1`). -/
theorem claim_C5_counterexample :
    validate_year ([] : List TxRow) = .error (.consistencyYears []) ∧
    ¬ 2 ≤ (List.map TxRow.year ([] : List TxRow)).dedup.length :=
  ⟨rfl, by decide⟩

/-- Claim C5 as amended: `validate_year` fails with a consistency error
listing the distinct years (sorted) exactly when the number of distinct year
values differs from one — two or more, or zero for an empty dataset — and
succeeds returning the single year (as a python `int`) exactly when one
distinct value exists. -/
theorem claim_C5_amended (rows : List TxRow) :
    ((rows.map TxRow.year).dedup.length = 1 ↔ ∃ y, validate_year rows = .ok y) ∧
    ((rows.map TxRow.year).dedup.length ≠ 1 ↔
      validate_year rows =
        .error (.consistencyYears (sortByKey id (rows.map TxRow.year).dedup))) ∧
    (∀ q, (rows.map TxRow.year).dedup = [q] → validate_year rows = .ok (pyInt q)) := by
  have hv : validate_year rows =
      match (rows.map TxRow.year).dedup with
      | [y] => .ok (pyInt y)
      | ys => .error (.consistencyYears (sortByKey id ys)) := rfl
  rcases hshape : (rows.map TxRow.year).dedup with - | ⟨y, - | ⟨z, zs⟩⟩
  · rw [hshape] at hv
    refine ⟨?_, ?_, ?_⟩
    · simp [hv]
    · simp [hv, hshape]
    · intro q hq
      simp at hq
  · rw [hshape] at hv
    refine ⟨?_, ?_, ?_⟩
    · simp [hv]
    · simp [hv, hshape]
    · intro q hq
      injection hq with h1
      subst h1
      exact hv
  · rw [hshape] at hv
    refine ⟨?_, ?_, ?_⟩
    · constructor
      · intro h
        simp at h
      · rintro ⟨y', hy'⟩
        rw [hv] at hy'
        cases hy'
    · simp [hv, hshape]
    · intro q hq
      simp at hq

/-- Witness for the amended claim C5: a single-year dataset succeeds with the
year, the empty dataset fails listing no years. -/
theorem claim_C5_amended_witness :
    validate_year txYear2024 = .ok (pyInt 2024) ∧
    validate_year ([] : List TxRow) =
      .error (.consistencyYears (sortByKey id (List.map TxRow.year ([] : List TxRow)).dedup)) :=
  ⟨(claim_C5_amended txYear2024).2.2 2024 (by decide),
   (claim_C5_amended ([] : List TxRow)).2.1.mp (by decide)⟩

/-! ### Row Normalizer call semantics (claim C6) -/

set_option maxRecDepth 8000
set_option maxHeartbeats 1000000

/-- Counterexample to claim C6 as stated: on an upload carrying only the five
required columns, the call succeeds but the caller's dataset object does not
keep its original columns and values — every column write inside
`ensure_columns` is an in-place assignment on the caller's frame (optional
columns appear, Year/Month/Amount are now numeric). -/
theorem claim_C6_counterexample :
    (ensure_columns_callerAfter demoRawDf).isSome = true ∧
    ensure_columns_callerAfter demoRawDf ≠ some demoRawDf := by
  refine ⟨?_, ?_⟩ <;> decide

set_option maxRecDepth 512
set_option maxHeartbeats 400000

/-- Claim C6 as amended: `ensure_columns` normalizes the frame in place and
returns it, so after a successful call the caller's dataset holds exactly the
returned normalized frame (not necessarily its original contents). -/
theorem claim_C6_amended (df r : RawDf) (h : ensure_columns df = .ok r) :
    ensure_columns_callerAfter df = some r := by
  unfold ensure_columns_callerAfter
  rw [h]

set_option maxRecDepth 8000 in
set_option maxHeartbeats 1000000 in
/-- Witness for the amended claim C6 at the five-column demo frame. -/
theorem claim_C6_amended_witness :
    ensure_columns_callerAfter demoRawDf = some demoNormalizedDf :=
  claim_C6_amended _ _ (by decide)

/-! ### Summary ordering (claim C7) -/

theorem pairwise_numeric_of_sorted {l : List SummaryRow}
    (hs : List.Sorted (keyLE (fun r => codeKey r.code)) l)
    (hall : ∀ r ∈ l, (pyFloatOfString r.code).isSome = true) :
    sortedByNumericCode l := by
  unfold sortedByNumericCode
  refine List.Pairwise.imp_of_mem ?_ hs
  intro a b ha hb hab
  obtain ⟨qa, hqa⟩ := Option.isSome_iff_exists.mp (hall a ha)
  obtain ⟨qb, hqb⟩ := Option.isSome_iff_exists.mp (hall b hb)
  have hka : codeKey a.code = (qa : WithTop ℚ) := by
    unfold codeKey
    rw [hqa]
  have hkb : codeKey b.code = (qb : WithTop ℚ) := by
    unfold codeKey
    rw [hqb]
  have h2 : (qa : WithTop ℚ) ≤ (qb : WithTop ℚ) := by
    rw [← hka, ← hkb]
    exact hab
  rw [hqa, hqb]
  simpa using WithTop.coe_le_coe.mp h2

theorem build_codes_from_rows {rows : List TxRow} {s : SummaryRow}
    (hs : s ∈ build_summary_table rows) : ∃ r ∈ rows, r.code = s.code := by
  have h1 := (build_summary_table_perm rows).mem_iff.mp hs
  obtain ⟨k, hk, rfl⟩ := List.mem_map.mp h1
  have hk2 := (sortByKey_perm _ _).mem_iff.mp hk
  have hk3 := List.mem_dedup.mp hk2
  obtain ⟨r, hr, hkey⟩ := List.mem_map.mp hk3
  exact ⟨r, hr, congrArg Prod.fst hkey⟩

/-- Claim C7: the summary table is sorted ascending by the numeric value of
the category code — both as produced by `build_summary_table` (over any rows
with numeric codes) and as preserved by `ensure_category_rows_exist` (over
any sorted input summary and any codes to add). -/
theorem claim_C7_sorted_by_numeric_code :
    (∀ rows : List TxRow, (∀ r ∈ rows, (pyFloatOfString r.code).isSome = true) →
      sortedByNumericCode (build_summary_table rows)) ∧
    (∀ (s : List SummaryRow) (codes : List String),
      (∀ r ∈ s, (pyFloatOfString r.code).isSome = true) →
      (∀ c ∈ codes, (pyFloatOfString c).isSome = true) →
      sortedByNumericCode s →
      sortedByNumericCode (ensure_category_rows_exist s codes)) := by
  constructor
  · intro rows hall
    apply pairwise_numeric_of_sorted (sortByKey_sorted _ _)
    intro r hr
    obtain ⟨t, ht, hcode⟩ := build_codes_from_rows hr
    rw [← hcode]
    exact hall t ht
  · intro s codes hs hcodes hsorted
    by_cases hmiss : ensureMissing s codes = []
    · rw [ensure_eq_of_no_missing hmiss]
      exact hsorted
    · rw [ensure_category_rows_exist, if_neg hmiss]
      apply pairwise_numeric_of_sorted (sortByKey_sorted _ _)
      intro r hr
      have hmem := (sortByKey_perm _ _).mem_iff.mp hr
      rcases List.mem_append.mp hmem with h | h
      · exact hs r h
      · obtain ⟨c, hc, rfl⟩ := List.mem_map.mp h
        have hc2 := (sortByKey_perm _ _).mem_iff.mp hc
        have hc3 := List.mem_dedup.mp hc2
        exact hcodes c (List.mem_filter.mp hc3).1

/-- Witness for claim C7: the summary of a one-row dataset with code 2, and
`ensure_category_rows_exist` run on a sorted one-row summary. -/
theorem claim_C7_sorted_by_numeric_code_witness :
    sortedByNumericCode (build_summary_table txYear2024) ∧
    sortedByNumericCode (ensure_category_rows_exist srow500 ["2", "9"]) :=
  ⟨claim_C7_sorted_by_numeric_code.1 txYear2024 (by decide),
   claim_C7_sorted_by_numeric_code.2 srow500 ["2", "9"] (by decide) (by decide)
     (by simp [sortedByNumericCode, srow500])⟩

/-! ### The synthetic Gala Tickets line (claim C8) -/

theorem get?_append_left {α : Type} {l : List α} (c : List α) {i : ℕ} {a : α}
    (h : l.get? i = some a) : (l ++ c).get? i = some a := by
  induction l generalizing i with
  | nil => simp at h
  | cons b bs ih =>
    cases i with
    | zero => simpa using h
    | succ n => simpa using ih (by simpa using h)

theorem get?_append_right_add {α : Type} (c l : List α) (i : ℕ) :
    (c ++ l).get? (c.length + i) = l.get? i := by
  induction c with
  | nil => simp
  | cons x xs ih => simpa [Nat.succ_add] using ih

/-- Two adjacent lines survive embedding the middle list into a longer one. -/
theorem adjacent_of_decomp {l pre mid post : List String} {x y : String}
    (hl : l = pre ++ (mid ++ post))
    (hmid : ∃ i, mid.get? i = some x ∧ mid.get? (i + 1) = some y) :
    ∃ i, l.get? i = some x ∧ l.get? (i + 1) = some y := by
  subst hl
  obtain ⟨i, h1, h2⟩ := hmid
  refine ⟨pre.length + i, ?_, ?_⟩
  · rw [get?_append_right_add]
    exact get?_append_left post h1
  · rw [show pre.length + i + 1 = pre.length + (i + 1) from by omega,
      get?_append_right_add]
    exact get?_append_left post h2

/-- Filtering the revenue rows down to code 9 is the same as filtering the
full dataset down to code 9 (code 9 is a revenue code). -/
theorem filter9_rev (full : List TxRow) :
    filterP (fun r => r.code = "9") (filterP (fun r => r.code ∈ REVENUE_CODES) full) =
      filterP (fun r => r.code = "9") full := by
  unfold filterP
  rw [List.filter_filter]
  apply List.filter_congr
  intro a _
  by_cases h : a.code = "9"
  · simp [h, REVENUE_CODES]
  · simp [h]

/-- The code-9 block of the Itemized Revenue section always starts with its
header line followed directly by the synthetic Gala Tickets line; with no
code-9 rows the header label is the canonical one. -/
theorem revCatChunk9 (rev : List TxRow) (g : ℚ) :
    ∃ (lbl : String) (tail : List String),
      revCatChunk rev g "9" =
        ("  Category 9 – " ++ lbl ++ ":") ::
          ("    Gala Tickets: " ++ format_currency g) :: tail ∧
      (filterP (fun r => r.code = "9") rev = [] → lbl = CATEGORY_LABELS "9") := by
  cases hcat : filterP (fun r => r.code = "9") rev with
  | nil =>
    refine ⟨CATEGORY_LABELS "9", [], ?_, fun _ => rfl⟩
    simp [revCatChunk, hcat]
  | cons r rest =>
    refine ⟨r.label, itemizationLines (r :: rest), ?_, ?_⟩
    · simp [revCatChunk, hcat]
    · intro h
      exact (List.cons_ne_nil r rest h).elim

/-- Shape of the Itemized Revenue section for a nonzero transfer amount: the
category-1 block and the five blocks for codes 2..7, then the code-9 block. -/
theorem itemizedRevenue_decomp (full : List TxRow) (g : ℚ) (hg : g ≠ 0) :
    itemizedRevenueSection full g =
      (cat1Lines (filterP (fun r => r.code ∈ REVENUE_CODES) full)
        ++ (revCatChunk (filterP (fun r => r.code ∈ REVENUE_CODES) full) g "2"
        ++ (revCatChunk (filterP (fun r => r.code ∈ REVENUE_CODES) full) g "3"
        ++ (revCatChunk (filterP (fun r => r.code ∈ REVENUE_CODES) full) g "4"
        ++ (revCatChunk (filterP (fun r => r.code ∈ REVENUE_CODES) full) g "6"
        ++ revCatChunk (filterP (fun r => r.code ∈ REVENUE_CODES) full) g "7")))))
      ++ (revCatChunk (filterP (fun r => r.code ∈ REVENUE_CODES) full) g "9" ++ []) := by
  have hcodes : sortByKey intKey (REVENUE_CODES.filter (fun c => decide (c ≠ "1"))) =
      ["2", "3", "4", "6", "7", "9"] := by decide
  simp only [itemizedRevenueSection]
  rw [if_neg (fun h => hg h.2), hcodes]
  simp [List.append_assoc]

/-- Claim C8: for a positive transfer amount the Itemized Revenue part of the
report carries a Category 9 section whose first detail line is the synthetic
`Gala Tickets` line with the formatted amount — immediately after the section
header, hence before every itemization-label detail line — and when the
merged dataset has no code-9 rows the header takes the canonical label. -/
theorem claim_C8_gala_section (year : ℤ) (summary : List SummaryRow)
    (full : List TxRow) (g : ℚ) (hg : 0 < g) :
    ∃ (i : ℕ) (lbl : String),
      (report_lines year summary full g).get? i =
        some ("  Category 9 – " ++ lbl ++ ":") ∧
      (report_lines year summary full g).get? (i + 1) =
        some ("    Gala Tickets: " ++ format_currency g) ∧
      (filterP (fun r => r.code = "9") full = [] → lbl = CATEGORY_LABELS "9") := by
  obtain ⟨lbl, tail, hchunk, hlbl⟩ :=
    revCatChunk9 (filterP (fun r => r.code ∈ REVENUE_CODES) full) g
  have hmid : ∃ i,
      (revCatChunk (filterP (fun r => r.code ∈ REVENUE_CODES) full) g "9").get? i =
        some ("  Category 9 – " ++ lbl ++ ":") ∧
      (revCatChunk (filterP (fun r => r.code ∈ REVENUE_CODES) full) g "9").get? (i + 1) =
        some ("    Gala Tickets: " ++ format_currency g) :=
    ⟨0, by rw [hchunk]; rfl, by rw [hchunk]; rfl⟩
  have hsec := adjacent_of_decomp (itemizedRevenue_decomp full g (ne_of_gt hg)) hmid
  have hrep : report_lines year summary full g =
      ([toString year ++ " Foreign Area Officer Association Annual Financial Report",
        "Foreign Area Officer Association (FAOA)",
        "------------------------------------------------------------------------",
        "", "Revenue Categories (using Adjusted totals)", "", "REVENUE CATEGORIES"]
       ++ (revenueSection summary
       ++ ([""]
       ++ (["Expense Categories (using Adjusted totals)", "", "EXPENSE CATEGORIES"]
       ++ (expenseSection summary
       ++ ["", "Itemized Revenue (BY IRS CATEGORY)", "", "ITEMIZED REVENUE"])))))
      ++ (itemizedRevenueSection full g
       ++ (["", "Itemized Expenses (BY IRS CATEGORY)", "", "ITEMIZED EXPENSES"]
       ++ (itemizedExpenseSection full
       ++ (["", "NEEDS FURTHER INVESTIGATION (Treasurer Flagged)"]
       ++ (flaggedSection full
       ++ ["", "End of report."]))))) := by
    simp [report_lines, List.append_assoc]
  obtain ⟨i, hi1, hi2⟩ := adjacent_of_decomp hrep hsec
  refine ⟨i, lbl, hi1, hi2, ?_⟩
  intro h
  apply hlbl
  rw [filter9_rev]
  exact h

/-- Witness for claim C8: the empty dataset with transfer amount 1 — the
report still carries the Category 9 section headed by the Gala Tickets line
under the canonical label. -/
theorem claim_C8_gala_section_witness :
    (0 : ℚ) < 1 ∧
    ∃ (i : ℕ) (lbl : String),
      (report_lines 2024 ([] : List SummaryRow) ([] : List TxRow) 1).get? i =
        some ("  Category 9 – " ++ lbl ++ ":") ∧
      (report_lines 2024 ([] : List SummaryRow) ([] : List TxRow) 1).get? (i + 1) =
        some ("    Gala Tickets: " ++ format_currency 1) ∧
      (filterP (fun r => r.code = "9") ([] : List TxRow) = [] →
        lbl = CATEGORY_LABELS "9") :=
  ⟨by norm_num, claim_C8_gala_section 2024 [] [] 1 (by norm_num)⟩

/-! ### Determinism of the renderer (claim C9) -/

/-- Claim C9: the report renderer is a pure function of the tuple (year,
summary, merged rows, transfer amount) — two invocations on identical inputs
yield identical output strings.  The embedding itself carries the modelling
content: `build_annual_report` reads nothing beyond its four arguments and
the module constants (no clock, randomness or session state appears in its
definition), so its output is determined by the input tuple. -/
theorem claim_C9_render_deterministic (y y' : ℤ) (s s' : List SummaryRow)
    (f f' : List TxRow) (g g' : ℚ)
    (hy : y = y') (hs : s = s') (hf : f = f') (hg : g = g') :
    build_annual_report y s f g = build_annual_report y' s' f' g' := by
  subst hy
  subst hs
  subst hf
  subst hg
  rfl

/-- Witness for claim C9 at a concrete input tuple. -/
theorem claim_C9_render_deterministic_witness :
    build_annual_report 2024 srow500 txYear2024 0 =
      build_annual_report 2024 srow500 txYear2024 0 :=
  claim_C9_render_deterministic 2024 2024 srow500 srow500 txYear2024 txYear2024 0 0
    rfl rfl rfl rfl

end FAOA
